import Mathlib

/-
Verification of the child-profile-service gateway (src/app.py).

The service is a stateless Flask gateway.  Its core is a JWT-based
"linking code" codec (generate_linking_code / verify_linking_code) plus
five forwarding handlers (add_child, link_supervisor, get_child,
get_children_list, update_child) guarded by a token_required decorator.

Embedding conventions:
  * A JWT is modelled as a `Token`: a claims `Payload` together with an
    HMAC tag.  HMAC-SHA256 is modelled as an ideal MAC: the tag is the
    pair (key, message), so tag equality holds exactly when both the key
    and the signed payload agree.  Collision-freeness of this
    idealisation stands in for the cryptographic assumption.
  * A Python string that is fed to jwt.decode is a `TokenStr`: either the
    compact serialisation of some `Token`, or `garbage` (any string that
    is not a well-formed JWS; PyJWT raises DecodeError, a subclass of
    InvalidTokenError, on such input).
  * PyJWT's decode checks the signature first, then the `exp` claim; a
    token is expired exactly when `exp <= now` (leeway 0).  Timestamps
    are naturals (seconds).  generate_linking_code calls utcnow() twice
    (for exp and iat); the two calls are modelled by one instant `now`.
  * Python exceptions are modelled by `Except` / `Option` results: every
    `try/except` branch of the source becomes an explicit constructor,
    and totality of the Lean functions models the absence of unhandled
    exceptions.
  * app.config is a `Config`.  The JWT secret is `Option String`: `none`
    models the misconfigured-secret case in which jwt.encode raises and
    generate_linking_code returns None (the spec's SigningFailed case),
    and in which verify_linking_code's catch-all `except Exception`
    branch fires.
  * The Data-Interaction Service is an oracle `Backend`; a call either
    yields a `BackendResponse` or raises one of the three caught network
    exception classes (`NetErr`).  Each handler returns, besides its
    HTTP status and JSON body, the ordered list of backend requests it
    issued, so that "the backend call is never invoked" is expressible.
-/

/-- JWT claims relevant to this service (absent claims are `none`). -/
structure Payload where
  child_id : Option String
  type : Option String
  sub : Option String
  role : Option String
  exp : Option Nat
  iat : Option Nat
deriving DecidableEq, Repr

/-- An HMAC-SHA256 tag, idealised: the tag determines the key and the
signed message exactly. -/
structure HmacTag where
  key : String
  message : Payload
deriving DecidableEq, Repr

/-- The ideal MAC used by jwt.encode / jwt.decode (HS256 in app.config). -/
def mac (key : String) (p : Payload) : HmacTag := ⟨key, p⟩

/-- A signed JWT: payload plus signature segment. -/
structure Token where
  payload : Payload
  sig : HmacTag
deriving DecidableEq, Repr

/-- A Python string in token position: either a well-formed compact JWS
or arbitrary garbage. -/
inductive TokenStr where
  | garbage (s : String) : TokenStr
  | tok (t : Token) : TokenStr
deriving DecidableEq, Repr

/-- A JSON value, as passed in request/response bodies.  `code` is the
compact JWS serialisation of a token embedded in a JSON string (used for
the linking_code field of add_child's success body). -/
inductive Json where
  | null : Json
  | bool (b : Bool) : Json
  | num (n : Int) : Json
  | str (s : String) : Json
  | code (t : Token) : Json
  | arr (xs : List Json) : Json
  | obj (fields : List (String × Json)) : Json

/-- The exceptions jwt.decode can raise that app.py catches. -/
inductive JwtError where
  | ExpiredSignature : JwtError
  | InvalidToken : JwtError
deriving DecidableEq, Repr

/-- Model of jwt.decode(code, secret, algorithms=[HS256]): signature is
verified first; then the exp claim fails exactly when exp <= now. -/
def jwt_decode (secret : String) (code : TokenStr) (now : Nat) :
    Except JwtError Payload :=
  match code with
  | .garbage _ => .error .InvalidToken
  | .tok t =>
    if t.sig = mac secret t.payload then
      match t.payload.exp with
      | some e => if e ≤ now then .error .ExpiredSignature else .ok t.payload
      | none => .ok t.payload
    else .error .InvalidToken

/-- Model of jwt.encode(payload, secret, algorithm=HS256). -/
def jwt_encode (secret : String) (p : Payload) : Token :=
  { payload := p, sig := mac secret p }

/-- app.config (src/app.py lines 21-30).  `jwt_secret_key = none` models
a misconfigured secret (lookup/signing raises). -/
structure Config where
  jwt_secret_key : Option String
  linking_code_expiration : Nat
  linking_code_type_claim : String
deriving DecidableEq, Repr

/-- The reference configuration (24h window, "linking_code" type tag). -/
def referenceConfig : Config :=
  { jwt_secret_key := some "default_jwt_secret_key_needs_change"
    linking_code_expiration := 86400
    linking_code_type_claim := "linking_code" }

/-- generate_linking_code (src/app.py lines 92-110): builds the payload
{child_id, type, exp = now + window, iat = now} and signs it; any
exception (modelled: missing secret) yields None. -/
def generate_linking_code (cfg : Config) (now : Nat) (child_id : String) :
    Option Token :=
  match cfg.jwt_secret_key with
  | none => none
  | some secret_key =>
    let payload : Payload :=
      { child_id := some child_id
        type := some cfg.linking_code_type_claim
        sub := none
        role := none
        exp := some (now + cfg.linking_code_expiration)
        iat := some now }
    some (jwt_encode secret_key payload)

/-- The return paths of verify_linking_code, tagged by which branch of
the source produced None (each branch has a distinct log line):
Invalid = except InvalidTokenError (line 142), Expired = except
ExpiredSignatureError (line 139), WrongType = type-claim mismatch
(line 128), MalformedPayload = missing/empty child_id (line 133),
UnexpectedFault = catch-all except Exception (line 145, fires in the
model when the secret is misconfigured). -/
inductive CodecError where
  | Invalid : CodecError
  | Expired : CodecError
  | WrongType : CodecError
  | MalformedPayload : CodecError
  | UnexpectedFault : CodecError
deriving DecidableEq, Repr

/-- verify_linking_code (src/app.py lines 112-147), with the None branch
tagged by its source return path.  Python's `if not child_id` treats
both a missing and an empty child_id claim as falsy. -/
def verify_linking_codeE (cfg : Config) (code : TokenStr) (now : Nat) :
    Except CodecError String :=
  match cfg.jwt_secret_key with
  | none => .error .UnexpectedFault
  | some secret_key =>
    match jwt_decode secret_key code now with
    | .error .ExpiredSignature => .error .Expired
    | .error .InvalidToken => .error .Invalid
    | .ok payload =>
      if payload.type ≠ some cfg.linking_code_type_claim then
        .error .WrongType
      else
        match payload.child_id with
        | none => .error .MalformedPayload
        | some cid => if cid = "" then .error .MalformedPayload else .ok cid

/-- verify_linking_code as the caller sees it: child_id on success,
None on every failure (src/app.py line 115). -/
def verify_linking_code (cfg : Config) (code : TokenStr) (now : Nat) :
    Option String :=
  (verify_linking_codeE cfg code now).toOption

/-- Outcome of the token_required decorator (src/app.py lines 38-89):
either the request proceeds with (user_id, role, token) loaded into `g`,
or an error response is returned. -/
inductive AuthResult where
  | ok (user_id : String) (role : String) (token : TokenStr) : AuthResult
  | err (status : Nat) (message : String) : AuthResult
deriving DecidableEq, Repr

def AuthResult.isOk : AuthResult → Bool
  | .ok _ _ _ => true
  | .err _ _ => false

/-- token_required (src/app.py lines 38-89).  `bearer` is the token
extracted from the Authorization header (`none` models a missing header
or one without the `Bearer ` prefix, lines 46-52).  Note the source
checks `sub`/`role` with `is None`, so empty strings pass. -/
def token_required (cfg : Config) (now : Nat) (bearer : Option TokenStr) :
    AuthResult :=
  match bearer with
  | none => .err 401 "Token is missing!"
  | some tok =>
    match cfg.jwt_secret_key with
    | none => .err 500 "Server configuration error"
    | some s =>
      if s = "" then .err 500 "Server configuration error"
      else
        match jwt_decode s tok now with
        | .error .ExpiredSignature => .err 401 "Access token has expired!"
        | .error .InvalidToken => .err 401 "Access token is invalid!"
        | .ok payload =>
          if payload.type ≠ some "access" then
            .err 401 "Invalid token type provided (expected access)"
          else
            match payload.sub, payload.role with
            | some uid, some r => .ok uid r tok
            | _, _ => .err 401 "Invalid token payload"

/-- Key lookup in a JSON object (Python dict .get / `in`). -/
def objGet (fields : List (String × Json)) (k : String) : Option Json :=
  (fields.find? (fun p => p.1 == k)).map (fun p => p.2)

/-- Python truthiness of a JSON value (None, False, 0, "", [], {} are
falsy).  A compact JWS string is nonempty, hence truthy. -/
def Json.falsy : Json → Bool
  | .null => true
  | .bool b => !b
  | .num n => n == 0
  | .str s => s == ""
  | .code _ => false
  | .arr xs => xs.isEmpty
  | .obj fs => fs.isEmpty

/-- verify_linking_code applied to an arbitrary JSON value taken from a
request body: a `.code` value is a well-formed JWS, a `.str` value is a
non-JWS string (DecodeError inside the try block → None), and a
non-string value makes jwt.decode raise (AttributeError), which the
catch-all `except Exception` of verify_linking_code turns into None. -/
def verify_linking_code_json (cfg : Config) (v : Json) (now : Nat) :
    Option String :=
  match v with
  | .code t => verify_linking_code cfg (.tok t) now
  | .str s => verify_linking_code cfg (.garbage s) now
  | _ => none

/-- An HTTP method used by the forwarding layer. -/
inductive Method where
  | GET : Method
  | POST : Method
  | PUT : Method
deriving DecidableEq, Repr

/-- A request sent by _make_db_request to the Data-Interaction Service:
method, endpoint (relative to the configured base URL), the caller's
bearer token passed through unchanged, and the JSON body. -/
structure BackendRequest where
  method : Method
  endpoint : String
  token : TokenStr
  data : Option Json

/-- The network exception classes raised by _make_db_request and caught
by every handler (src/app.py lines 173-182): requests' ConnectionError
and Timeout are re-raised as builtin ConnectionError / TimeoutError, any
other RequestException is re-raised as is. -/
inductive NetErr where
  | connectionError : NetErr
  | timeoutError : NetErr
  | requestException : NetErr
deriving DecidableEq, Repr

/-- A response from the Data-Interaction Service.  `jsonBody = none`
models a body that response.json() cannot parse; `text` is the raw
response text used as a fallback. -/
structure BackendResponse where
  status : Nat
  jsonBody : Option Json
  text : String

/-- The Data-Interaction Service as an oracle: each forwarded request
either returns a response or raises a caught network exception. -/
def Backend : Type := BackendRequest → Except NetErr BackendResponse

/-- What a handler produces: the HTTP status, the JSON body, and the
ordered list of backend requests it issued (so that "the backend call
was never invoked" is a statement about the model). -/
structure HandlerResult where
  status : Nat
  body : Json
  calls : List BackendRequest

/-- jsonify({"message": m}). -/
def jsonMsg (m : String) : Json := .obj [("message", .str m)]

/-- response.json() with fallback {"message": response.text} on a parse
failure — the forwarding pattern of get_child, get_children_list and
update_child. -/
def respBody (r : BackendResponse) : Json :=
  match r.jsonBody with
  | some j => j
  | none => jsonMsg r.text

/-- Python str() of a JSON value as interpolated into error messages.
Containers and embedded tokens are abbreviated: no specified behaviour
depends on their rendering. -/
def jsonRender : Json → String
  | .str s => s
  | .num n => toString n
  | .bool true => "True"
  | .bool false => "False"
  | .null => "None"
  | .code _ => "<jws>"
  | .arr _ => "<list>"
  | .obj _ => "<dict>"

/-- The error message built by add_child / link_supervisor when the
backend answers with a non-success status (src/app.py lines 280-282 and
321-323): the Reason suffix on a parseable JSON object body (falling
back to the raw text when the message key is absent), the Status suffix
when response.json() fails or the parsed body is not a dict (`.get`
raises, caught by the bare except). -/
def dbErrorMsg (base : String) (r : BackendResponse) : String :=
  match r.jsonBody with
  | some (.obj fields) =>
    base ++ " Reason: " ++ jsonRender ((objGet fields "message").getD (Json.str r.text))
  | _ => base ++ " Status: " ++ toString r.status

/-- requests' Response.ok (used at src/app.py line 400): true exactly
when raise_for_status would not raise, i.e. status outside 400-599.
NOTE: the source's inline comment claims this "Checks for 2xx status
codes"; it does not — any 3xx status counts as ok. -/
def responseOk (s : Nat) : Bool :=
  if 400 ≤ s ∧ s < 600 then false else true

/-- request_create_child (src/app.py lines 186-197): re-projects the
five child fields and POSTs them. -/
def request_create_child (child_data : List (String × Json))
    (parent_token : TokenStr) : BackendRequest :=
  { method := .POST
    endpoint := "/internal/children"
    token := parent_token
    data := some (.obj
      [("name", (objGet child_data "name").getD .null),
       ("birthday", (objGet child_data "birthday").getD .null),
       ("group", (objGet child_data "group").getD .null),
       ("allergies", (objGet child_data "allergies").getD .null),
       ("notes", (objGet child_data "notes").getD .null)]) }

/-- request_link_supervisor (src/app.py lines 199-204). -/
def request_link_supervisor (child_id supervisor_id : String)
    (supervisor_token : TokenStr) : BackendRequest :=
  { method := .PUT
    endpoint := "/internal/children/" ++ child_id ++ "/link-supervisor"
    token := supervisor_token
    data := some (.obj [("supervisor_id", .str supervisor_id)]) }

/-- request_get_child (src/app.py lines 206-210). -/
def request_get_child (child_id : String) (user_token : TokenStr) :
    BackendRequest :=
  { method := .GET
    endpoint := "/data/children/" ++ child_id
    token := user_token
    data := none }

/-- request_get_children_list (src/app.py lines 212-216). -/
def request_get_children_list (user_token : TokenStr) : BackendRequest :=
  { method := .GET
    endpoint := "/data/children"
    token := user_token
    data := none }

/-- request_update_child (src/app.py lines 218-222). -/
def request_update_child (child_id : String) (update_data : Json)
    (user_token : TokenStr) : BackendRequest :=
  { method := .PUT
    endpoint := "/internal/children/" ++ child_id
    token := user_token
    data := some update_data }

/-- `data.get(k) if data else None` on an optional request body. -/
def bodyGet (body : Option (List (String × Json))) (k : String) :
    Option Json :=
  match body with
  | some data => objGet data k
  | none => none

/-- The child_data dict built by add_child (src/app.py lines 251-257). -/
def childPayload (data : List (String × Json)) : List (String × Json) :=
  [("name", (objGet data "name").getD .null),
   ("birthday", (objGet data "birthday").getD .null),
   ("group", (objGet data "group").getD .null),
   ("allergies", (objGet data "allergies").getD .null),
   ("notes", (objGet data "notes").getD .null)]

/-- add_child (src/app.py lines 232-290), after token_required succeeded
with the given user_id / user_role / user_token.  `body` is
request.get_json() (`none`: no JSON body; the empty object is falsy as
in Python).  The child_id of the backend's 201 body is modelled as a
JSON string per the backend contract; a truthy non-string child_id
(unreachable under that contract) is conflated with the missing-id
branch. -/
def add_child (cfg : Config) (now : Nat) (backend : Backend)
    (user_id user_role : String) (user_token : TokenStr)
    (body : Option (List (String × Json))) : HandlerResult :=
  if user_role ≠ "parent" then
    ⟨403, jsonMsg "Forbidden: Only parents can add children", []⟩
  else
    match body with
    | none => ⟨400, jsonMsg "Missing required fields: name, birthday", []⟩
    | some data =>
      if data.isEmpty || !(objGet data "name").isSome
          || !(objGet data "birthday").isSome then
        ⟨400, jsonMsg "Missing required fields: name, birthday", []⟩
      else
        match backend (request_create_child (childPayload data) user_token) with
        | .error _ =>
          ⟨503, jsonMsg "Error communicating with database service",
            [request_create_child (childPayload data) user_token]⟩
        | .ok r =>
          if r.status = 201 then
            match r.jsonBody with
            | some (.obj fs) =>
              match objGet fs "child_id" with
              | some (.str cid) =>
                if cid = "" then
                  ⟨500, jsonMsg "Child profile created, but failed to get ID.",
                    [request_create_child (childPayload data) user_token]⟩
                else
                  match generate_linking_code cfg now cid with
                  | none =>
                    ⟨500,
                     jsonMsg "Child profile created, but linking code generation failed.",
                     [request_create_child (childPayload data) user_token]⟩
                  | some code =>
                    ⟨201, .obj
                      [("message", .str "Child profile added successfully"),
                       ("child_id", .str cid),
                       ("linking_code", .code code)],
                      [request_create_child (childPayload data) user_token]⟩
              | _ =>
                ⟨500, jsonMsg "Child profile created, but failed to get ID.",
                  [request_create_child (childPayload data) user_token]⟩
            | _ =>
              ⟨500, jsonMsg "An internal server error occurred",
                [request_create_child (childPayload data) user_token]⟩
          else
            ⟨r.status,
             jsonMsg (dbErrorMsg "Failed to create child profile via database service." r),
             [request_create_child (childPayload data) user_token]⟩

/-- link_supervisor (src/app.py lines 293-333), after token_required
succeeded. -/
def link_supervisor (cfg : Config) (now : Nat) (backend : Backend)
    (supervisor_id user_role : String) (supervisor_token : TokenStr)
    (body : Option (List (String × Json))) : HandlerResult :=
  if user_role ≠ "teacher" then
    ⟨403, jsonMsg "Forbidden: Only supervisors can link using a code", []⟩
  else
    match bodyGet body "linking_code" with
    | none => ⟨400, jsonMsg "Missing 'linking_code' in request body", []⟩
    | some v =>
      if v.falsy then
        ⟨400, jsonMsg "Missing 'linking_code' in request body", []⟩
      else
        match verify_linking_code_json cfg v now with
        | none => ⟨400, jsonMsg "Invalid or expired linking code", []⟩
        | some child_id =>
          let req := request_link_supervisor child_id supervisor_id
            supervisor_token
          match backend req with
          | .error _ =>
            ⟨503, jsonMsg "Error communicating with database service", [req]⟩
          | .ok r =>
            if r.status = 200 then
              ⟨200, .obj
                [("message", .str "Supervisor linked successfully"),
                 ("child_id", .str child_id)], [req]⟩
            else if r.status = 404 then
              ⟨404, jsonMsg "Failed to link supervisor: Child not found.",
                [req]⟩
            else
              ⟨r.status,
               jsonMsg (dbErrorMsg "Failed to link supervisor via database service." r),
               [req]⟩

/-- get_child (src/app.py lines 336-357), after token_required
succeeded: forwards status and body (or text fallback). -/
def get_child (backend : Backend) (user_token : TokenStr)
    (child_id : String) : HandlerResult :=
  let req := request_get_child child_id user_token
  match backend req with
  | .error _ =>
    ⟨503, jsonMsg "Error communicating with database service", [req]⟩
  | .ok r => ⟨r.status, respBody r, [req]⟩

/-- get_children_list (src/app.py lines 360-381), after token_required
succeeded. -/
def get_children_list (backend : Backend) (user_token : TokenStr) :
    HandlerResult :=
  let req := request_get_children_list user_token
  match backend req with
  | .error _ =>
    ⟨503, jsonMsg "Error communicating with database service", [req]⟩
  | .ok r => ⟨r.status, respBody r, [req]⟩

/-- update_child (src/app.py lines 384-430), after token_required
succeeded: read-authorization pre-check via the GET endpoint, then the
mutation only when `authz_response.ok` (i.e. status outside 400-599,
see responseOk). -/
def update_child (backend : Backend) (user_id : String)
    (user_token : TokenStr) (child_id : String)
    (body : Option (List (String × Json))) : HandlerResult :=
  match body with
  | none => ⟨400, jsonMsg "Missing request body", []⟩
  | some data =>
    if data.isEmpty then ⟨400, jsonMsg "Missing request body", []⟩
    else
      let authzReq := request_get_child child_id user_token
      match backend authzReq with
      | .error _ =>
        ⟨503,
         jsonMsg "Error communicating with database service for authorization",
         [authzReq]⟩
      | .ok ar =>
        if responseOk ar.status then
          let upReq := request_update_child child_id (.obj data) user_token
          match backend upReq with
          | .error _ =>
            ⟨503, jsonMsg "Error communicating with database service for update",
              [authzReq, upReq]⟩
          | .ok ur => ⟨ur.status, respBody ur, [authzReq, upReq]⟩
        else
          ⟨ar.status, respBody ar, [authzReq]⟩

/-- An unreachable placeholder payload, used only as an Option default
in concrete evaluations. -/
def emptyPayload : Payload :=
  { child_id := none, type := none, sub := none, role := none,
    exp := none, iat := none }

example :
    verify_linking_code referenceConfig
      (.tok ((generate_linking_code referenceConfig 1000 "child-1").getD
        (jwt_encode "" emptyPayload))) 1500 = some "child-1" := by decide

example :
    verify_linking_code referenceConfig
      (.tok ((generate_linking_code referenceConfig 1000 "child-1").getD
        (jwt_encode "" emptyPayload))) 87400 = none := by decide

/-- Unfolding of generate_linking_code when the secret is configured. -/
theorem generate_spec (cfg : Config) (s : String) (now : Nat) (cid : String)
    (hs : cfg.jwt_secret_key = some s) :
    generate_linking_code cfg now cid = some (jwt_encode s
      { child_id := some cid
        type := some cfg.linking_code_type_claim
        sub := none
        role := none
        exp := some (now + cfg.linking_code_expiration)
        iat := some now }) := by
  simp [generate_linking_code, hs]

/-- The claims and signature of a generated linking code. -/
theorem generated_shape (cfg : Config) (s : String) (now : Nat) (cid : String)
    (tok : Token) (hs : cfg.jwt_secret_key = some s)
    (hgen : generate_linking_code cfg now cid = some tok) :
    tok.payload =
      { child_id := some cid
        type := some cfg.linking_code_type_claim
        sub := none
        role := none
        exp := some (now + cfg.linking_code_expiration)
        iat := some now } ∧
    tok.sig = mac s tok.payload := by
  rw [generate_spec cfg s now cid hs] at hgen
  obtain rfl := Option.some.inj hgen
  exact ⟨rfl, rfl⟩

/-- jwt.decode succeeds on a correctly signed, unexpired token. -/
theorem jwt_decode_valid (s : String) (tok : Token) (t : Nat)
    (hsig : tok.sig = mac s tok.payload)
    (hexp : tok.payload.exp = none ∨ ∃ e, tok.payload.exp = some e ∧ t < e) :
    jwt_decode s (.tok tok) t = .ok tok.payload := by
  rcases hexp with h | ⟨e, he, hlt⟩
  · simp [jwt_decode, hsig, h]
  · simp [jwt_decode, hsig, he, Nat.not_le.mpr hlt]

/-- Inversion: jwt.decode succeeds only on a well-formed token whose
signature matches, and returns exactly that token's payload. -/
theorem jwt_decode_ok_inv (s : String) (c : TokenStr) (t : Nat) (p : Payload)
    (h : jwt_decode s c t = .ok p) :
    ∃ tok, c = .tok tok ∧ p = tok.payload ∧ tok.sig = mac s tok.payload := by
  cases c with
  | garbage str => simp [jwt_decode] at h
  | tok tok =>
    by_cases hsig : tok.sig = mac s tok.payload
    · refine ⟨tok, rfl, ?_, hsig⟩
      cases he : tok.payload.exp with
      | none =>
        simp only [jwt_decode, hsig, if_true, he, Except.ok.injEq] at h
        exact h.symm
      | some e =>
        by_cases hle : e ≤ t
        · simp [jwt_decode, hsig, he, hle] at h
        · simp only [jwt_decode, hsig, if_true, he, hle, if_false,
            Except.ok.injEq] at h
          exact h.symm
    · simp [jwt_decode, hsig] at h

/-- Behaviour of verification on a generated code, as a function of the
verification instant and the embedded child_id. -/
theorem verifyE_generated (cfg : Config) (s : String) (now t : Nat)
    (cid : String) (tok : Token)
    (hs : cfg.jwt_secret_key = some s)
    (hgen : generate_linking_code cfg now cid = some tok) :
    verify_linking_codeE cfg (.tok tok) t =
      if now + cfg.linking_code_expiration ≤ t then .error .Expired
      else if cid = "" then .error .MalformedPayload
      else .ok cid := by
  rw [generate_spec cfg s now cid hs] at hgen
  obtain rfl := Option.some.inj hgen
  by_cases hle : now + cfg.linking_code_expiration ≤ t
  · simp [verify_linking_codeE, hs, jwt_decode, jwt_encode, mac, hle]
  · by_cases hcid : cid = "" <;>
      simp [verify_linking_codeE, hs, jwt_decode, jwt_encode, mac, hle, hcid]

/-- Inversion: verification succeeds only on a well-formed token whose
type claim is the configured linking-code tag and whose child_id claim
is present, nonempty, and equal to the returned id. -/
theorem verifyE_ok_inv (cfg : Config) (c : TokenStr) (t : Nat) (cid : String)
    (h : verify_linking_codeE cfg c t = .ok cid) :
    ∃ tok, c = .tok tok ∧
      tok.payload.type = some cfg.linking_code_type_claim ∧
      tok.payload.child_id = some cid ∧ cid ≠ "" := by
  unfold verify_linking_codeE at h
  cases hcs : cfg.jwt_secret_key with
  | none =>
    simp only [hcs] at h
    exact Except.noConfusion h
  | some s =>
    simp only [hcs] at h
    cases hd : jwt_decode s c t with
    | error e =>
      cases e <;> simp only [hd] at h <;> exact Except.noConfusion h
    | ok p =>
      simp only [hd] at h
      obtain ⟨tok, rfl, hp, hsig⟩ := jwt_decode_ok_inv s c t p hd
      subst hp
      by_cases hty : tok.payload.type ≠ some cfg.linking_code_type_claim
      · rw [if_pos hty] at h
        exact Except.noConfusion h
      · rw [if_neg hty] at h
        push_neg at hty
        cases hcid : tok.payload.child_id with
        | none =>
          simp only [hcid] at h
          exact Except.noConfusion h
        | some cid2 =>
          simp only [hcid] at h
          by_cases hz : cid2 = ""
          · rw [if_pos hz] at h
            exact Except.noConfusion h
          · rw [if_neg hz] at h
            obtain rfl := Except.ok.inj h
            exact ⟨tok, rfl, hty, hcid, hz⟩

/-- verify_linking_code succeeds exactly when the tagged version does. -/
theorem verify_eq_some_iff (cfg : Config) (c : TokenStr) (t : Nat)
    (cid : String) :
    verify_linking_code cfg c t = some cid ↔
      verify_linking_codeE cfg c t = .ok cid := by
  unfold verify_linking_code
  cases hE : verify_linking_codeE cfg c t <;>
    simp [Except.toOption]


/-- A concrete generated linking code used by the witnesses below. -/
def sampleToken : Token :=
  jwt_encode "default_jwt_secret_key_needs_change"
    { child_id := some "child-1"
      type := some "linking_code"
      sub := none
      role := none
      exp := some 87400
      iat := some 1000 }

/-- C1: for every valid (non-empty) child_id string, verifying a code
generated for that child_id, strictly before the code's expiry instant,
returns exactly that child_id. -/
theorem C1_linking_code_roundtrip (cfg : Config) (s : String) (now t : Nat)
    (child_id : String) (tok : Token)
    (hs : cfg.jwt_secret_key = some s)
    (hne : child_id ≠ "")
    (hgen : generate_linking_code cfg now child_id = some tok)
    (ht : t < now + cfg.linking_code_expiration) :
    verify_linking_code cfg (.tok tok) t = some child_id := by
  rw [verify_eq_some_iff, verifyE_generated cfg s now t child_id tok hs hgen,
    if_neg (Nat.not_le.mpr ht), if_neg hne]

/-- C1 witness: the round trip at a concrete child_id and time. -/
theorem C1_linking_code_roundtrip_witness :
    generate_linking_code referenceConfig 1000 "child-1" = some sampleToken ∧
    verify_linking_code referenceConfig (.tok sampleToken) 1500 =
      some "child-1" :=
  ⟨rfl, C1_linking_code_roundtrip referenceConfig
    "default_jwt_secret_key_needs_change" 1000 1500 "child-1" sampleToken
    rfl (by decide) rfl (by decide)⟩

/-- C3: a generated linking code embeds the expiry instant
now + window; verification at or after that instant fails with Expired,
and verification strictly before it (with valid claims, i.e. a nonempty
child_id) succeeds. -/
theorem C3_expiry_boundary (cfg : Config) (s : String) (now : Nat)
    (cid : String) (tok : Token)
    (hs : cfg.jwt_secret_key = some s)
    (hgen : generate_linking_code cfg now cid = some tok) :
    tok.payload.exp = some (now + cfg.linking_code_expiration) ∧
    (∀ t, now + cfg.linking_code_expiration ≤ t →
      verify_linking_codeE cfg (.tok tok) t = .error .Expired) ∧
    (∀ t, t < now + cfg.linking_code_expiration → cid ≠ "" →
      verify_linking_codeE cfg (.tok tok) t = .ok cid) := by
  refine ⟨?_, ?_, ?_⟩
  · obtain ⟨hp, _⟩ := generated_shape cfg s now cid tok hs hgen
    rw [hp]
  · intro t ht
    rw [verifyE_generated cfg s now t cid tok hs hgen, if_pos ht]
  · intro t ht hne
    rw [verifyE_generated cfg s now t cid tok hs hgen,
      if_neg (Nat.not_le.mpr ht), if_neg hne]

/-- C3 witness: expiry boundary at the concrete expiry instant 87400. -/
theorem C3_expiry_boundary_witness :
    sampleToken.payload.exp = some 87400 ∧
    verify_linking_codeE referenceConfig (.tok sampleToken) 87400 =
      .error .Expired ∧
    verify_linking_codeE referenceConfig (.tok sampleToken) 90000 =
      .error .Expired ∧
    verify_linking_codeE referenceConfig (.tok sampleToken) 87399 =
      .ok "child-1" := by
  obtain ⟨h1, h2, h3⟩ := C3_expiry_boundary referenceConfig
    "default_jwt_secret_key_needs_change" 1000 "child-1" sampleToken rfl rfl
  exact ⟨h1, h2 87400 (by decide), h2 90000 (by decide),
    h3 87399 (by decide) (by decide)⟩

/-- C9: replacing the signature segment of a generated code by anything
else makes verification fail with Invalid (and return no child_id), and
verification of a string that is not a well-formed JWS also fails with
Invalid; verification is a total function, so no input can make it
raise. -/
theorem C9_signature_tampering (cfg : Config) (s : String) (now : Nat)
    (cid : String) (tok : Token)
    (hs : cfg.jwt_secret_key = some s)
    (hgen : generate_linking_code cfg now cid = some tok) :
    (∀ (sig2 : HmacTag) (t : Nat), sig2 ≠ tok.sig →
      verify_linking_codeE cfg (.tok ⟨tok.payload, sig2⟩) t =
        .error .Invalid ∧
      verify_linking_code cfg (.tok ⟨tok.payload, sig2⟩) t = none) ∧
    (∀ (str : String) (t : Nat),
      verify_linking_codeE cfg (.garbage str) t = .error .Invalid) := by
  obtain ⟨hp, hsg⟩ := generated_shape cfg s now cid tok hs hgen
  constructor
  · intro sig2 t hne
    have hd : jwt_decode s (.tok ⟨tok.payload, sig2⟩) t =
        .error .InvalidToken := by
      simp only [jwt_decode]
      exact if_neg (fun hc => hne (hc.trans hsg.symm))
    constructor
    · simp [verify_linking_codeE, hs, hd]
    · simp [verify_linking_code, verify_linking_codeE, hs, hd,
        Except.toOption]
  · intro str t
    simp [verify_linking_codeE, hs, jwt_decode]

/-- C9 witness: a concrete signature forgery and a concrete garbage
string are both rejected with Invalid. -/
theorem C9_signature_tampering_witness :
    verify_linking_codeE referenceConfig
      (.tok ⟨sampleToken.payload, ⟨"wrong-key", sampleToken.payload⟩⟩)
      1500 = .error .Invalid ∧
    verify_linking_code referenceConfig
      (.tok ⟨sampleToken.payload, ⟨"wrong-key", sampleToken.payload⟩⟩)
      1500 = none ∧
    verify_linking_codeE referenceConfig (.garbage "not-a-jwt") 1500 =
      .error .Invalid := by
  obtain ⟨h1, h2⟩ := C9_signature_tampering referenceConfig
    "default_jwt_secret_key_needs_change" 1000 "child-1" sampleToken rfl rfl
  obtain ⟨ha, hb⟩ := h1 ⟨"wrong-key", sampleToken.payload⟩ 1500 (by decide)
  exact ⟨ha, hb, h2 "not-a-jwt" 1500⟩

/-- C10: generation accepts the empty child_id, but verification treats
a missing or empty child_id claim as malformed, so
verify(generate("")) fails instead of returning "". -/
theorem C10_empty_child_id (cfg : Config) (s : String) (now : Nat)
    (hs : cfg.jwt_secret_key = some s) :
    (∃ tok, generate_linking_code cfg now "" = some tok ∧
      (∀ t, verify_linking_code cfg (.tok tok) t = none) ∧
      (∀ t, t < now + cfg.linking_code_expiration →
        verify_linking_codeE cfg (.tok tok) t = .error .MalformedPayload)) ∧
    (∀ (tok : Token) (t : Nat), tok.sig = mac s tok.payload →
      tok.payload.type = some cfg.linking_code_type_claim →
      tok.payload.child_id = none →
      (tok.payload.exp = none ∨ ∃ e, tok.payload.exp = some e ∧ t < e) →
      verify_linking_codeE cfg (.tok tok) t = .error .MalformedPayload) := by
  constructor
  · refine ⟨_, generate_spec cfg s now "" hs, ?_, ?_⟩
    · intro t
      unfold verify_linking_code
      rw [verifyE_generated cfg s now t "" _ hs (generate_spec cfg s now "" hs)]
      by_cases hle : now + cfg.linking_code_expiration ≤ t
      · rw [if_pos hle]
        rfl
      · rw [if_neg hle, if_pos rfl]
        rfl
    · intro t ht
      rw [verifyE_generated cfg s now t "" _ hs (generate_spec cfg s now "" hs),
        if_neg (Nat.not_le.mpr ht), if_pos rfl]
  · intro tok t hsg hty hcid hexp
    have hd := jwt_decode_valid s tok t hsg hexp
    simp only [verify_linking_codeE, hs, hd]
    rw [if_neg (fun hcon => hcon hty), hcid]

/-- The code generated for the empty child_id at time 1000. -/
def emptyIdToken : Token :=
  jwt_encode "default_jwt_secret_key_needs_change"
    { child_id := some ""
      type := some "linking_code"
      sub := none
      role := none
      exp := some 87400
      iat := some 1000 }

/-- C10 witness: generate("") succeeds but verification of the result
fails with MalformedPayload. -/
theorem C10_empty_child_id_witness :
    generate_linking_code referenceConfig 1000 "" = some emptyIdToken ∧
    verify_linking_code referenceConfig (.tok emptyIdToken) 1500 = none ∧
    verify_linking_codeE referenceConfig (.tok emptyIdToken) 1500 =
      .error .MalformedPayload := by
  obtain ⟨⟨tok, hgen, hnone, hmal⟩, _⟩ := C10_empty_child_id referenceConfig
    "default_jwt_secret_key_needs_change" 1000 rfl
  have h2 : some tok = some emptyIdToken := hgen.symm.trans rfl
  obtain rfl := Option.some.inj h2
  exact ⟨hgen, hnone 1500, hmal 1500 (by decide)⟩

/-- Inversion: token_required authenticates only a well-formed token
whose type claim is "access". -/
theorem token_required_ok_inv (cfg : Config) (t : Nat) (b : Option TokenStr)
    (uid r : String) (tk : TokenStr)
    (h : token_required cfg t b = .ok uid r tk) :
    ∃ tok, b = some (.tok tok) ∧ tok.payload.type = some "access" := by
  cases b with
  | none => simp [token_required] at h
  | some code =>
    unfold token_required at h
    cases hcs : cfg.jwt_secret_key with
    | none =>
      simp only [hcs] at h
      exact AuthResult.noConfusion h
    | some s =>
      simp only [hcs] at h
      by_cases hz : s = ""
      · rw [if_pos hz] at h
        exact AuthResult.noConfusion h
      · rw [if_neg hz] at h
        cases hd : jwt_decode s code t with
        | error e =>
          cases e <;> simp only [hd] at h <;> exact AuthResult.noConfusion h
        | ok p =>
          simp only [hd] at h
          obtain ⟨tok, rfl, hp, _⟩ := jwt_decode_ok_inv s code t p hd
          subst hp
          by_cases hty : tok.payload.type ≠ some "access"
          · rw [if_pos hty] at h
            exact AuthResult.noConfusion h
          · push_neg at hty
            exact ⟨tok, rfl, hty⟩

/-- C2: a token whose type claim is not the linking-code tag is never
accepted by linking-code verification, and (when its signature is valid
and it is unexpired, as for any live access token) is rejected exactly
with WrongType; symmetrically, a token whose type claim is not "access"
never authenticates, and a live, correctly signed one is rejected with
the 401 wrong-type response. -/
theorem C2_type_confusion (cfg : Config) (s : String)
    (hs : cfg.jwt_secret_key = some s) :
    (∀ (tok : Token) (t : Nat),
      tok.payload.type ≠ some cfg.linking_code_type_claim →
      verify_linking_code cfg (.tok tok) t = none) ∧
    (∀ (tok : Token) (t : Nat), tok.sig = mac s tok.payload →
      (tok.payload.exp = none ∨ ∃ e, tok.payload.exp = some e ∧ t < e) →
      tok.payload.type ≠ some cfg.linking_code_type_claim →
      verify_linking_codeE cfg (.tok tok) t = .error .WrongType) ∧
    (∀ (tok : Token) (t : Nat), tok.payload.type ≠ some "access" →
      (token_required cfg t (some (.tok tok))).isOk = false) ∧
    (∀ (tok : Token) (t : Nat), s ≠ "" → tok.sig = mac s tok.payload →
      (tok.payload.exp = none ∨ ∃ e, tok.payload.exp = some e ∧ t < e) →
      tok.payload.type ≠ some "access" →
      token_required cfg t (some (.tok tok)) =
        .err 401 "Invalid token type provided (expected access)") := by
  refine ⟨?_, ?_, ?_, ?_⟩
  · intro tok t hty
    cases hv : verify_linking_code cfg (.tok tok) t with
    | none => rfl
    | some cid =>
      exfalso
      have hE := (verify_eq_some_iff cfg (.tok tok) t cid).mp hv
      obtain ⟨tok2, heq, hty2, _, _⟩ := verifyE_ok_inv cfg (.tok tok) t cid hE
      obtain rfl := TokenStr.tok.inj heq
      exact hty hty2
  · intro tok t hsg hexp hty
    have hd := jwt_decode_valid s tok t hsg hexp
    simp only [verify_linking_codeE, hs, hd]
    rw [if_pos hty]
  · intro tok t hty
    cases hr : token_required cfg t (some (.tok tok)) with
    | err st m => rfl
    | ok uid r tk =>
      exfalso
      obtain ⟨tok2, heq, hty2⟩ := token_required_ok_inv cfg t _ uid r tk hr
      obtain rfl := TokenStr.tok.inj (Option.some.inj heq)
      exact hty hty2
  · intro tok t hz hsg hexp hty
    have hd := jwt_decode_valid s tok t hsg hexp
    simp only [token_required, hs]
    rw [if_neg hz]
    simp only [hd]
    rw [if_pos hty]

/-- A live access token issued by the identity provider. -/
def sampleAccessToken : Token :=
  jwt_encode "default_jwt_secret_key_needs_change"
    { child_id := none
      type := some "access"
      sub := some "user-1"
      role := some "parent"
      exp := some 7200
      iat := some 0 }

/-- C2 witness: a live access token is rejected as a linking code with
WrongType, and a live linking code is rejected by token_required with
the 401 wrong-type response. -/
theorem C2_type_confusion_witness :
    verify_linking_code referenceConfig (.tok sampleAccessToken) 100 =
      none ∧
    verify_linking_codeE referenceConfig (.tok sampleAccessToken) 100 =
      .error .WrongType ∧
    (token_required referenceConfig 1500 (some (.tok sampleToken))).isOk =
      false ∧
    token_required referenceConfig 1500 (some (.tok sampleToken)) =
      .err 401 "Invalid token type provided (expected access)" := by
  obtain ⟨h1, h2, h3, h4⟩ := C2_type_confusion referenceConfig
    "default_jwt_secret_key_needs_change" rfl
  exact ⟨h1 sampleAccessToken 100 (by decide),
    h2 sampleAccessToken 100 rfl (Or.inr ⟨7200, rfl, by decide⟩) (by decide),
    h3 sampleToken 1500 (by decide),
    h4 sampleToken 1500 (by decide) rfl (Or.inr ⟨87400, rfl, by decide⟩)
      (by decide)⟩

/-- C6: add_child returns 403 for every non-parent caller, regardless of
the request payload: the role check precedes payload validation, so even
a missing body yields 403, and no backend call is made. -/
theorem C6_role_gate (cfg : Config) (now : Nat) (backend : Backend)
    (user_id user_role : String) (user_token : TokenStr)
    (body : Option (List (String × Json)))
    (hrole : user_role ≠ "parent") :
    add_child cfg now backend user_id user_role user_token body =
      ⟨403, jsonMsg "Forbidden: Only parents can add children", []⟩ := by
  unfold add_child
  rw [if_pos hrole]

/-- C6 witness: a teacher with no body at all still gets the 403. -/
theorem C6_role_gate_witness :
    ("teacher" : String) ≠ "parent" ∧
    add_child referenceConfig 0 (fun _ => .error .connectionError) "user-2"
      "teacher" (.garbage "tok") none =
      ⟨403, jsonMsg "Forbidden: Only parents can add children", []⟩ :=
  ⟨by decide, C6_role_gate referenceConfig 0 _ "user-2" "teacher"
    (.garbage "tok") none (by decide)⟩

/-- C4: whenever the supplied linking code fails verification — for any
failure kind — link_supervisor answers 400 with the one fixed message
and no backend call; any two such failing requests get identical
responses. -/
theorem C4_uniform_codec_error (cfg : Config)
    (now1 now2 : Nat) (b1 b2 : Backend) (sid1 sid2 : String)
    (tk1 tk2 : TokenStr)
    (body1 body2 : Option (List (String × Json))) (v1 v2 : Json)
    (h1 : bodyGet body1 "linking_code" = some v1)
    (h2 : bodyGet body2 "linking_code" = some v2)
    (hf1 : v1.falsy = false) (hf2 : v2.falsy = false)
    (hv1 : verify_linking_code_json cfg v1 now1 = none)
    (hv2 : verify_linking_code_json cfg v2 now2 = none) :
    link_supervisor cfg now1 b1 sid1 "teacher" tk1 body1 =
      ⟨400, jsonMsg "Invalid or expired linking code", []⟩ ∧
    link_supervisor cfg now2 b2 sid2 "teacher" tk2 body2 =
      ⟨400, jsonMsg "Invalid or expired linking code", []⟩ ∧
    link_supervisor cfg now1 b1 sid1 "teacher" tk1 body1 =
      link_supervisor cfg now2 b2 sid2 "teacher" tk2 body2 := by
  have key : ∀ (now : Nat) (b : Backend) (sid : String) (tk : TokenStr)
      (body : Option (List (String × Json))) (v : Json),
      bodyGet body "linking_code" = some v → v.falsy = false →
      verify_linking_code_json cfg v now = none →
      link_supervisor cfg now b sid "teacher" tk body =
        ⟨400, jsonMsg "Invalid or expired linking code", []⟩ := by
    intro now b sid tk body v hb hf hv
    simp [link_supervisor, hb, hf, hv]
  refine ⟨key now1 b1 sid1 tk1 body1 v1 h1 hf1 hv1,
    key now2 b2 sid2 tk2 body2 v2 h2 hf2 hv2, ?_⟩
  rw [key now1 b1 sid1 tk1 body1 v1 h1 hf1 hv1,
    key now2 b2 sid2 tk2 body2 v2 h2 hf2 hv2]

/-- C4 witness: an expired code and a garbage string produce the same
fixed 400 response. -/
theorem C4_uniform_codec_error_witness :
    link_supervisor referenceConfig 90000 (fun _ => .error .connectionError)
      "teacher-1" "teacher" (.garbage "tk")
      (some [("linking_code", .code sampleToken)]) =
      ⟨400, jsonMsg "Invalid or expired linking code", []⟩ ∧
    link_supervisor referenceConfig 0 (fun _ => .error .timeoutError)
      "teacher-2" "teacher" (.garbage "tk2")
      (some [("linking_code", .str "junk")]) =
      ⟨400, jsonMsg "Invalid or expired linking code", []⟩ ∧
    link_supervisor referenceConfig 90000 (fun _ => .error .connectionError)
      "teacher-1" "teacher" (.garbage "tk")
      (some [("linking_code", .code sampleToken)]) =
      link_supervisor referenceConfig 0 (fun _ => .error .timeoutError)
        "teacher-2" "teacher" (.garbage "tk2")
        (some [("linking_code", .str "junk")]) :=
  C4_uniform_codec_error referenceConfig 90000 0 _ _ "teacher-1" "teacher-2"
    (.garbage "tk") (.garbage "tk2")
    (some [("linking_code", .code sampleToken)])
    (some [("linking_code", .str "junk")])
    (.code sampleToken) (.str "junk") rfl rfl rfl rfl rfl rfl

/-- Backend used for the C5 counterexample: the read pre-check answers
304 Not Modified (a non-2xx status that requests' Response.ok treats as
ok), the update endpoint answers 200. -/
def c5Backend : Backend := fun req =>
  match req.method with
  | .GET => .ok ⟨304, some (jsonMsg "not modified"), "not modified"⟩
  | _ => .ok ⟨200, some (jsonMsg "Child updated"), "Child updated"⟩

/-- C5, refuted as stated: with a pre-check response of 304 (non-2xx),
the source's `authz_response.ok` test (requests: ok ⟺ status < 400)
still authorizes the mutation — the handler issues the backend update
call and returns the update's result instead of propagating the 304 and
stopping.  The inline comment at src/app.py line 400 ("Checks for 2xx
status codes") states the 2xx intent that the code does not implement. -/
theorem C5_precheck_gating_violated :
    update_child c5Backend "parent-3" (.garbage "tok") "child-1"
      (some [("name", .str "Updated")]) =
      ⟨200, jsonMsg "Child updated",
        [request_get_child "child-1" (.garbage "tok"),
         request_update_child "child-1" (.obj [("name", .str "Updated")])
           (.garbage "tok")]⟩ := rfl

/-- C7: every forwarding handler maps a raised connection / timeout /
request exception from the Data-Interaction Service call to a 503
response with the stable {"message": ...} error body (totality of the
handlers models that the exception never propagates).  For update_child,
either of its two backend calls failing yields the 503. -/
theorem C7_backend_unavailable (cfg : Config) (now : Nat) (e : NetErr) :
    (∀ (b : Backend) (uid : String) (tk : TokenStr)
        (data : List (String × Json)),
      data.isEmpty = false → (objGet data "name").isSome = true →
      (objGet data "birthday").isSome = true →
      b (request_create_child (childPayload data) tk) = .error e →
      add_child cfg now b uid "parent" tk (some data) =
        ⟨503, jsonMsg "Error communicating with database service",
          [request_create_child (childPayload data) tk]⟩) ∧
    (∀ (b : Backend) (sid : String) (tk : TokenStr)
        (body : Option (List (String × Json))) (v : Json) (cid : String),
      bodyGet body "linking_code" = some v → v.falsy = false →
      verify_linking_code_json cfg v now = some cid →
      b (request_link_supervisor cid sid tk) = .error e →
      link_supervisor cfg now b sid "teacher" tk body =
        ⟨503, jsonMsg "Error communicating with database service",
          [request_link_supervisor cid sid tk]⟩) ∧
    (∀ (b : Backend) (tk : TokenStr) (cid : String),
      b (request_get_child cid tk) = .error e →
      get_child b tk cid =
        ⟨503, jsonMsg "Error communicating with database service",
          [request_get_child cid tk]⟩) ∧
    (∀ (b : Backend) (tk : TokenStr),
      b (request_get_children_list tk) = .error e →
      get_children_list b tk =
        ⟨503, jsonMsg "Error communicating with database service",
          [request_get_children_list tk]⟩) ∧
    (∀ (b : Backend) (uid : String) (tk : TokenStr) (cid : String)
        (data : List (String × Json)),
      data.isEmpty = false →
      b (request_get_child cid tk) = .error e →
      update_child b uid tk cid (some data) =
        ⟨503,
         jsonMsg "Error communicating with database service for authorization",
         [request_get_child cid tk]⟩) ∧
    (∀ (b : Backend) (uid : String) (tk : TokenStr) (cid : String)
        (data : List (String × Json)) (ar : BackendResponse),
      data.isEmpty = false →
      b (request_get_child cid tk) = .ok ar →
      responseOk ar.status = true →
      b (request_update_child cid (.obj data) tk) = .error e →
      update_child b uid tk cid (some data) =
        ⟨503, jsonMsg "Error communicating with database service for update",
          [request_get_child cid tk,
           request_update_child cid (.obj data) tk]⟩) := by
  refine ⟨?_, ?_, ?_, ?_, ?_, ?_⟩
  · intro b uid tk data hI hn hb herr
    simp [add_child, hI, hn, hb, herr]
  · intro b sid tk body v cid hb hf hv herr
    simp [link_supervisor, hb, hf, hv, herr]
  · intro b tk cid herr
    simp [get_child, herr]
  · intro b tk herr
    simp [get_children_list, herr]
  · intro b uid tk cid data hI herr
    simp [update_child, hI, herr]
  · intro b uid tk cid data ar hI hok har hup
    simp [update_child, hI, hok, har, hup]

/-- A backend whose every call raises a connection error. -/
def failingBackend : Backend := fun _ => .error .connectionError

/-- A backend whose reads succeed and whose writes time out. -/
def mixedBackend : Backend := fun q =>
  match q.method with
  | .GET => .ok ⟨200, some (jsonMsg "ok"), "ok"⟩
  | _ => .error .timeoutError

/-- A valid create-child request body. -/
def childBody : List (String × Json) :=
  [("name", .str "Ana"), ("birthday", .str "2023-01-10")]

/-- C7 witness: all five forwarding handlers at concrete requests, with
the backend raising connection/timeout errors. -/
theorem C7_backend_unavailable_witness :
    add_child referenceConfig 1500 failingBackend "p1" "parent"
      (.garbage "tk") (some childBody) =
      ⟨503, jsonMsg "Error communicating with database service",
        [request_create_child (childPayload childBody) (.garbage "tk")]⟩ ∧
    link_supervisor referenceConfig 1500 failingBackend "t1" "teacher"
      (.garbage "tk") (some [("linking_code", .code sampleToken)]) =
      ⟨503, jsonMsg "Error communicating with database service",
        [request_link_supervisor "child-1" "t1" (.garbage "tk")]⟩ ∧
    get_child failingBackend (.garbage "tk") "c9" =
      ⟨503, jsonMsg "Error communicating with database service",
        [request_get_child "c9" (.garbage "tk")]⟩ ∧
    get_children_list failingBackend (.garbage "tk") =
      ⟨503, jsonMsg "Error communicating with database service",
        [request_get_children_list (.garbage "tk")]⟩ ∧
    update_child failingBackend "u1" (.garbage "tk") "c9"
      (some [("name", .str "B")]) =
      ⟨503,
       jsonMsg "Error communicating with database service for authorization",
       [request_get_child "c9" (.garbage "tk")]⟩ ∧
    update_child mixedBackend "u1" (.garbage "tk") "c9"
      (some [("name", .str "B")]) =
      ⟨503, jsonMsg "Error communicating with database service for update",
        [request_get_child "c9" (.garbage "tk"),
         request_update_child "c9" (.obj [("name", .str "B")])
           (.garbage "tk")]⟩ := by
  obtain ⟨p1, p2, p3, p4, p5, _⟩ :=
    C7_backend_unavailable referenceConfig 1500 .connectionError
  obtain ⟨_, _, _, _, _, p6⟩ :=
    C7_backend_unavailable referenceConfig 1500 .timeoutError
  exact ⟨p1 failingBackend "p1" (.garbage "tk") childBody rfl rfl rfl rfl,
    p2 failingBackend "t1" (.garbage "tk")
      (some [("linking_code", .code sampleToken)]) (.code sampleToken)
      "child-1" rfl rfl rfl rfl,
    p3 failingBackend (.garbage "tk") "c9" rfl,
    p4 failingBackend (.garbage "tk") rfl,
    p5 failingBackend "u1" (.garbage "tk") "c9" [("name", .str "B")] rfl rfl,
    p6 mixedBackend "u1" (.garbage "tk") "c9" [("name", .str "B")]
      ⟨200, some (jsonMsg "ok"), "ok"⟩ rfl rfl rfl rfl⟩

/-- Inversion: add_child answers 201 only from its success branch, in
which a linking code was actually generated and is embedded in the
response body. -/
theorem add_child_201_inv (cfg : Config) (now : Nat) (b : Backend)
    (uid role : String) (tk : TokenStr)
    (body : Option (List (String × Json)))
    (h : (add_child cfg now b uid role tk body).status = 201) :
    ∃ cid code, generate_linking_code cfg now cid = some code ∧
      (add_child cfg now b uid role tk body).body = .obj
        [("message", .str "Child profile added successfully"),
         ("child_id", .str cid), ("linking_code", .code code)] := by
  obtain ⟨st, bd, cs, hres⟩ :
      ∃ st bd cs, add_child cfg now b uid role tk body = ⟨st, bd, cs⟩ :=
    ⟨_, _, _, rfl⟩
  rw [hres] at h ⊢
  unfold add_child at hres
  repeat' split at hres
  all_goals injection hres with h1 h2 h3
  all_goals subst h1
  all_goals subst h2
  all_goals first
    | exact ⟨_, _, by assumption, rfl⟩
    | (exfalso; simp_all)

/-- C8: if the backend creates the child (201 with a child_id) but local
linking-code generation then fails (misconfigured secret), add_child
answers 500 with the message that distinguishes "child created, code
generation failed" from a clean failure; and in general no 201 response
is ever produced without an actually generated linking code embedded in
its body. -/
theorem C8_partial_failure (cfg : Config) (now : Nat) (b : Backend)
    (uid : String) (tk : TokenStr) (data : List (String × Json))
    (r : BackendResponse) (fs : List (String × Json)) (cid : String)
    (hsec : cfg.jwt_secret_key = none)
    (hI : data.isEmpty = false)
    (hn : (objGet data "name").isSome = true)
    (hb : (objGet data "birthday").isSome = true)
    (hr : b (request_create_child (childPayload data) tk) = .ok r)
    (h201 : r.status = 201)
    (hjson : r.jsonBody = some (.obj fs))
    (hcid : objGet fs "child_id" = some (.str cid))
    (hne : cid ≠ "") :
    add_child cfg now b uid "parent" tk (some data) =
      ⟨500,
       jsonMsg "Child profile created, but linking code generation failed.",
       [request_create_child (childPayload data) tk]⟩ ∧
    (∀ (cfg2 : Config) (now2 : Nat) (b2 : Backend) (uid2 role2 : String)
        (tk2 : TokenStr) (body2 : Option (List (String × Json))),
      (add_child cfg2 now2 b2 uid2 role2 tk2 body2).status = 201 →
      ∃ cid2 code, generate_linking_code cfg2 now2 cid2 = some code ∧
        (add_child cfg2 now2 b2 uid2 role2 tk2 body2).body = .obj
          [("message", .str "Child profile added successfully"),
           ("child_id", .str cid2), ("linking_code", .code code)]) := by
  constructor
  · have hgen : generate_linking_code cfg now cid = none := by
      unfold generate_linking_code
      rw [hsec]
    simp [add_child, hI, hn, hb, hr, h201, hjson, hcid, hne, hgen]
  · intro cfg2 now2 b2 uid2 role2 tk2 body2 h
    exact add_child_201_inv cfg2 now2 b2 uid2 role2 tk2 body2 h

/-- The configuration with a missing JWT secret (signing raises). -/
def brokenConfig : Config :=
  { jwt_secret_key := none
    linking_code_expiration := 86400
    linking_code_type_claim := "linking_code" }

/-- A backend that successfully creates the child. -/
def createdBackend : Backend := fun _ =>
  .ok ⟨201, some (.obj [("child_id", .str "child-7")]), "created"⟩

/-- C8 witness: concrete create succeeding upstream while local code
generation fails. -/
theorem C8_partial_failure_witness :
    add_child brokenConfig 0 createdBackend "p1" "parent" (.garbage "tk")
      (some childBody) =
      ⟨500,
       jsonMsg "Child profile created, but linking code generation failed.",
       [request_create_child (childPayload childBody) (.garbage "tk")]⟩ :=
  (C8_partial_failure brokenConfig 0 createdBackend "p1" (.garbage "tk")
    childBody ⟨201, some (.obj [("child_id", .str "child-7")]), "created"⟩
    [("child_id", .str "child-7")] "child-7"
    rfl rfl rfl rfl rfl rfl rfl rfl (by decide)).1
